import Mathlib

/-!
Verification of the VQE dashboard script (`streamlit_visualization.py`).

The script loads one JSON document, resolves three fields with defaults,
and renders a fixed sequence of dashboard blocks (texts, charts, a progress
indicator, summaries).  We embed the script shallowly: JSON numbers become
exact rationals, the loaded document becomes a record of optional fields,
and a run of the script becomes a pure function from the load outcome and
the three sidebar toggles to the list of rendered blocks together with an
optional runtime error (the negative-index access on an empty array).
-/

/-- The loaded JSON document: the three recognized optional keys, plus a flag
recording whether the object carries any other keys (needed to model Python
dict truthiness, which is plain non-emptiness of the mapping). -/
structure ResultDocument where
  ground_state_energy : Option ℚ
  iterations : Option ℕ
  energy_convergence : Option (List ℚ)
  extraKeys : Bool
deriving Repr, DecidableEq

/-- Python truthiness of the loaded dict: a dict is truthy iff non-empty. -/
def ResultDocument.truthy (d : ResultDocument) : Bool :=
  d.extraKeys || d.ground_state_energy.isSome || d.iterations.isSome ||
    d.energy_convergence.isSome

/-- Outcome of `load_results()`: the parsed document, or one of the two
caught exceptions (each of which reports an error and yields `None`). -/
inductive LoadOutcome where
  | success (d : ResultDocument)
  | fileNotFound
  | jsonDecodeError
deriving Repr, DecidableEq

/-- The three sidebar checkboxes (all created with default `True`). -/
structure Toggles where
  show_histogram : Bool
  show_running_avg : Bool
  use_plotly : Bool
deriving Repr, DecidableEq

/-- `np.linspace start stop num` with the default inclusive endpoint:
`num` evenly spaced samples from `start` to `stop`; `num = 1` yields
`[start]`, `num = 0` yields `[]`. -/
def linspace (start stop : ℚ) (num : ℕ) : List ℚ :=
  if num = 0 then []
  else if num = 1 then [start]
  else (List.range num).map
    (fun i : ℕ => start + (i : ℚ) * ((stop - start) / ((num : ℚ) - 1)))

/-- The document with every field resolved, as the script computes them
(lines 27-29): stored value if present, else the stated default; the
sequence default is `np.linspace(0.6, -0.886786, iterations)` computed from
the already-resolved iteration count. -/
structure ResolvedDocument where
  ground_state_energy : ℚ
  iterations : ℕ
  energy_convergence : List ℚ
deriving Repr, DecidableEq

def resolve (d : ResultDocument) : ResolvedDocument :=
  let ground_state_energy := d.ground_state_energy.getD 0.0
  let iterations := d.iterations.getD 100
  let energy_convergence :=
    d.energy_convergence.getD (linspace 0.6 (-0.886786) iterations)
  ⟨ground_state_energy, iterations, energy_convergence⟩

/-- `np.cumsum` with a running accumulator. -/
def cumsumAux (acc : ℚ) : List ℚ → List ℚ
  | [] => []
  | x :: xs => (acc + x) :: cumsumAux (acc + x) xs

/-- `np.cumsum`: the list of prefix sums (no leading zero). -/
def cumsum (l : List ℚ) : List ℚ := cumsumAux 0 l

/-- Line 94: `running_avg = np.cumsum(ec) / np.arange(1, len(ec) + 1)`,
the elementwise quotient of the prefix sums by `[1, 2, ..., len]`. -/
def runningAvg (ec : List ℚ) : List ℚ :=
  List.zipWith (fun s n => s / n) (cumsum ec)
    ((List.range ec.length).map (fun i => ((i + 1 : ℕ) : ℚ)))

/-- Round a rational to the nearest integer, ties to even
(the rounding Python `round` applies to the scaled value). -/
def roundHalfToEven (q : ℚ) : ℤ :=
  if Int.fract q < 1/2 then ⌊q⌋
  else if 1/2 < Int.fract q then ⌊q⌋ + 1
  else if 2 ∣ ⌊q⌋ then ⌊q⌋ else ⌊q⌋ + 1

/-- Python `round(x, 6)`: round to 6 decimal places, ties to even. -/
def pyRound6 (q : ℚ) : ℚ := (roundHalfToEven (q * 1000000) : ℚ) / 1000000

/-- A figure handed to one of the two charting backends, keeping the data
series, labels and styling arguments of the corresponding call. -/
inductive Fig where
  | pxLine (x : List ℕ) (y : List ℚ) (xlabel ylabel figTitle : String)
  | pltLine (y : List ℚ) (legendLabel color xlabel ylabel figTitle : String)
      (grid : Bool)
  | pxHist (data : List ℚ) (nbins : ℕ) (figTitle xlabel ylabel : String)
  | pltHist (data : List ℚ) (bins : ℕ) (alpha : ℚ) (color xlabel ylabel figTitle : String)
deriving Repr, DecidableEq

/-- The x data series a figure plots (matplotlib line plots with a single
argument use the implicit positional x axis `0, 1, ...`). -/
def Fig.xData : Fig → List ℕ
  | .pxLine x _ _ _ _ => x
  | .pltLine y _ _ _ _ _ _ => List.range y.length
  | .pxHist _ _ _ _ _ => []
  | .pltHist _ _ _ _ _ _ _ => []

/-- The y (or binned) data series a figure plots. -/
def Fig.yData : Fig → List ℚ
  | .pxLine _ y _ _ _ => y
  | .pltLine y _ _ _ _ _ _ => y
  | .pxHist data _ _ _ _ => data
  | .pltHist data _ _ _ _ _ _ => data

/-- The x axis label of a figure. -/
def Fig.xLabel : Fig → String
  | .pxLine _ _ xl _ _ => xl
  | .pltLine _ _ _ xl _ _ _ => xl
  | .pxHist _ _ _ xl _ => xl
  | .pltHist _ _ _ _ xl _ _ => xl

/-- The y axis label of a figure. -/
def Fig.yLabel : Fig → String
  | .pxLine _ _ _ yl _ => yl
  | .pltLine _ _ _ _ yl _ _ => yl
  | .pxHist _ _ _ _ yl => yl
  | .pltHist _ _ _ _ _ yl _ => yl

/-- The title of a figure. -/
def Fig.theTitle : Fig → String
  | .pxLine _ _ _ _ t => t
  | .pltLine _ _ _ _ _ t _ => t
  | .pxHist _ _ t _ _ => t
  | .pltHist _ _ _ _ _ _ t => t

/-- The observable content of a figure for backend comparison:
data series, axis labels and title. -/
def figObs (f : Fig) : (List ℕ × List ℚ) × (String × String) × String :=
  ((f.xData, f.yData), (f.xLabel, f.yLabel), f.theTitle)

/-- One rendered dashboard block.  Dynamic values interpolated into the
written text are carried structurally. -/
inductive Block where
  | error (msg : String)
  | pageTitle (s : String)
  | write (s : String)
  | jsonView (d : ResultDocument)
  | sidebarHeader (s : String)
  | checkbox (label : String) (dflt : Bool)
  | computedEnergy (q : ℚ)
  | totalIterations (n : ℕ)
  | plotlyChart (f : Fig)
  | pyplotChart (f : Fig)
  | subheader (s : String)
  | progressBar (steps : ℕ)
  | finalEnergy (q : ℚ)
  | processedIterations (n : ℕ)
deriving Repr, DecidableEq

/-- The runtime error the script can hit after loading: the negative index
`energy_convergence[-1]` on an empty array (line 121). -/
inductive RenderError where
  | indexError
deriving Repr, DecidableEq

/-- The convergence-chart figure for each backend (lines 53-69). -/
def convFig (use_plotly : Bool) (ec : List ℚ) : Fig :=
  if use_plotly then
    .pxLine (List.range ec.length) ec "Iterations" "Energy (Hartree)"
      "VQE Energy Convergence"
  else
    .pltLine ec "Energy Convergence" "blue" "Iterations" "Energy (Hartree)"
      "VQE Energy Convergence" true

/-- The histogram figure for each backend (lines 75-88). -/
def histFig (use_plotly : Bool) (ec : List ℚ) : Fig :=
  if use_plotly then
    .pxHist ec 30 "Energy Distribution" "Energy (Hartree)" "Frequency"
  else
    .pltHist ec 20 (7/10) "blue" "Energy (Hartree)" "Frequency"
      "Energy Distribution"

/-- The running-average figure for each backend (lines 95-109). -/
def runningAvgFig (use_plotly : Bool) (ra : List ℚ) : Fig :=
  if use_plotly then
    .pxLine (List.range ra.length) ra "Iterations" "Energy (Hartree)"
      "Running Average of Energy"
  else
    .pltLine ra "Running Average" "green" "Iterations" "Energy (Hartree)"
      "Running Average of Energy" false

/-- Wrap a figure in the chart block of the active backend. -/
def chartBlock (use_plotly : Bool) (f : Fig) : Block :=
  if use_plotly then .plotlyChart f else .pyplotChart f

/-- Lines 32-69: everything rendered before the optional sections -- title,
intro, raw JSON dump, sidebar controls, the two-line summary and the
always-shown convergence chart. -/
def preBlocks (d : ResultDocument) (use_plotly : Bool) : List Block :=
  let r := resolve d
  [ .pageTitle "Quantum Simulation - VQE Visualization",
    .write "### Understanding Quantum Simulation",
    .write "This dashboard visualizes the process of finding the ground-state energy using the VQE algorithm. Ground-state energy is the lowest possible energy state of a quantum system and is essential in understanding molecular stability, reaction dynamics, and quantum computing optimizations.",
    .write "### Input Data (Quantum Results)",
    .jsonView d,
    .sidebarHeader "Visualization Controls",
    .checkbox "Show Energy Distribution" true,
    .checkbox "Show Running Average" true,
    .checkbox "Use Plotly for Interactive Plots" true,
    .write "### Ground-State Energy Calculation",
    .computedEnergy r.ground_state_energy,
    .totalIterations r.iterations,
    .write "### Energy Convergence Over Iterations",
    .write "This graph shows how the energy approaches the optimal ground-state value over iterations, ensuring the algorithm\x27s convergence.",
    chartBlock use_plotly (convFig use_plotly r.energy_convergence) ]

/-- Lines 72-88: the optional histogram section. -/
def histSection (use_plotly : Bool) (ec : List ℚ) : List Block :=
  [ .write "### Energy Distribution",
    .write "This histogram represents the spread of energy values encountered during optimization, giving insight into the stability of calculations.",
    chartBlock use_plotly (histFig use_plotly ec) ]

/-- Lines 91-109: the optional running-average section. -/
def runningAvgSection (use_plotly : Bool) (ec : List ℚ) : List Block :=
  [ .write "### Running Average of Energy",
    .write "This plot tracks how the energy stabilizes over time, helping to assess the effectiveness of the optimization process.",
    chartBlock use_plotly (runningAvgFig use_plotly (runningAvg ec)) ]

/-- Lines 112-118: the simulated progress indicator, advanced once per
declared iteration. -/
def progressSection (iterations : ℕ) : List Block :=
  [ .subheader "Energy Convergence Progress",
    .write "This progress bar simulates the iterative optimization process, showing how the algorithm progresses towards the optimal energy state.",
    .progressBar iterations ]

/-- Lines 125-131: the static closing commentary. -/
def conclusionBlocks : List Block :=
  [ .write "### Conclusion",
    .write "This quantum simulation successfully approximates the ground-state energy of a system using the VQE algorithm. The visualizations help in understanding how the algorithm converges towards the optimal solution, making quantum computations more accessible and interpretable.",
    .write "Ground-state energy is a critical metric in quantum mechanics, enabling advancements in:",
    .write "- **Material Science:** Predicting the properties of new materials.",
    .write "- **Chemistry:** Understanding molecular structures and reaction pathways.",
    .write "- **Quantum Computing:** Optimizing quantum circuits for better performance.",
    .write "This showcases how quantum algorithms can solve real-world problems efficiently." ]

/-- Lines 26-131: the dashboard body rendered when the loaded document is
truthy, ending with the final summary -- whose `energy_convergence[-1]`
access raises `IndexError` when the resolved sequence is empty, aborting
the render right there. -/
def renderDoc (d : ResultDocument) (t : Toggles) : List Block × Option RenderError :=
  if d.truthy then
    let r := resolve d
    let base :=
      preBlocks d t.use_plotly ++
      (if t.show_histogram then histSection t.use_plotly r.energy_convergence else []) ++
      (if t.show_running_avg then runningAvgSection t.use_plotly r.energy_convergence else []) ++
      progressSection r.iterations
    match r.energy_convergence.getLast? with
    | some last =>
        (base ++ [.finalEnergy (pyRound6 last), .processedIterations r.iterations] ++
          conclusionBlocks, none)
    | none => (base, some .indexError)
  else ([], none)

/-- The whole script run: on a load failure an error message was already
reported by `load_results` and the `if results:` guard skips everything
else; on success the body renders iff the dict is truthy. -/
def app (o : LoadOutcome) (t : Toggles) : List Block × Option RenderError :=
  match o with
  | .fileNotFound => ([.error "Error: quantum_results.json file not found!"], none)
  | .jsonDecodeError => ([.error "Error: Invalid JSON format!"], none)
  | .success d => renderDoc d t

/-- Total wall-clock time spent in the `time.sleep` calls of the progress
loop, for an environment assigning an actual duration to each sleep.  The
sleeps are the only interaction of the script with its environment beyond
the already-loaded document and the toggles. -/
def sleepTotal (env : ℕ → ℚ) (o : LoadOutcome) : ℚ :=
  match o with
  | .success d =>
      if d.truthy then (((List.range (resolve d).iterations).map env).sum) else 0
  | _ => 0

/-- A run of the script in a timing environment: the rendered output
together with the elapsed sleeping time. -/
def appTimed (env : ℕ → ℚ) (o : LoadOutcome) (t : Toggles) :
    (List Block × Option RenderError) × ℚ :=
  (app o t, sleepTotal env o)

/-- The values displayed as the final computed ground-state energy
(line 121), extracted from a rendered block list. -/
def finalEnergyValues (bs : List Block) : List ℚ :=
  bs.filterMap (fun b => match b with | .finalEnergy q => some q | _ => none)

/-! ### Prefix-sum and running-average lemmas -/

lemma cumsumAux_length (l : List ℚ) : ∀ acc : ℚ, (cumsumAux acc l).length = l.length := by
  induction l with
  | nil => intro acc; rfl
  | cons x xs ih => intro acc; simp [cumsumAux, ih]

lemma cumsum_length (l : List ℚ) : (cumsum l).length = l.length :=
  cumsumAux_length l 0

lemma cumsumAux_getD (l : List ℚ) :
    ∀ (acc : ℚ) (i : ℕ), i < l.length →
      (cumsumAux acc l).getD i 0 = acc + (l.take (i + 1)).sum := by
  induction l with
  | nil => intro acc i h; simp at h
  | cons x xs ih =>
    intro acc i h
    cases i with
    | zero => simp [cumsumAux]
    | succ n =>
      have hn : n < xs.length := by simpa using h
      simp only [cumsumAux, List.getD_cons_succ, List.take_succ_cons, List.sum_cons]
      rw [ih (acc + x) n hn]
      ring

lemma cumsum_getD (l : List ℚ) (i : ℕ) (h : i < l.length) :
    (cumsum l).getD i 0 = (l.take (i + 1)).sum :=
  by simpa using cumsumAux_getD l 0 i h

lemma runningAvg_length (ec : List ℚ) : (runningAvg ec).length = ec.length := by
  simp [runningAvg, cumsum_length]

lemma runningAvg_getD (ec : List ℚ) (i : ℕ) (h : i < ec.length) :
    (runningAvg ec).getD i 0 = (ec.take (i + 1)).sum / ((i : ℚ) + 1) := by
  have hlen : i < (runningAvg ec).length := by rwa [runningAvg_length]
  have hc : i < (cumsum ec).length := by rwa [cumsum_length]
  have hr : i < ((List.range ec.length).map (fun j => ((j + 1 : ℕ) : ℚ))).length := by
    simpa using h
  rw [List.getD_eq_getElem _ _ hlen]
  simp only [runningAvg, List.getElem_zipWith, List.getElem_map, List.getElem_range]
  rw [← List.getD_eq_getElem (cumsum ec) 0 hc, cumsum_getD ec i h]
  push_cast
  ring_nf

/-- C1: for a document whose energy sequence has N values, the derived
running-average sequence (line 94) has length N and its i-th element is the
arithmetic mean of the first i+1 energy values. -/
theorem running_average_length_and_mean (ec : List ℚ) :
    (runningAvg ec).length = ec.length ∧
    ∀ i, i < ec.length →
      (runningAvg ec).getD i 0 = (ec.take (i + 1)).sum / ((i : ℚ) + 1) :=
  ⟨runningAvg_length ec, fun i h => runningAvg_getD ec i h⟩

/-- Witness for C1 at the concrete sequence [1, 2, 4]: the element at
index 1 is the mean of the first two values. -/
theorem running_average_length_and_mean_witness :
    1 < [(1 : ℚ), 2, 4].length ∧
    (runningAvg [(1 : ℚ), 2, 4]).getD 1 0 =
      ([(1 : ℚ), 2, 4].take (1 + 1)).sum / ((1 : ℕ) + 1 : ℚ) :=
  ⟨by decide, (running_average_length_and_mean [(1 : ℚ), 2, 4]).2 1 (by decide)⟩

/-! ### Linspace lemmas -/

lemma linspace_length (start stop : ℚ) (num : ℕ) :
    (linspace start stop num).length = num := by
  simp only [linspace]
  split
  · simp [*]
  · split
    · simp [*]
    · simp

lemma linspace_getD (start stop : ℚ) (num : ℕ) (h2 : 2 ≤ num)
    (i : ℕ) (hi : i < num) :
    (linspace start stop num).getD i 0 =
      start + i * ((stop - start) / ((num : ℚ) - 1)) := by
  have h0 : ¬ num = 0 := by omega
  have h1 : ¬ num = 1 := by omega
  have hl : i < (linspace start stop num).length := by rwa [linspace_length]
  rw [List.getD_eq_getElem _ _ hl]
  simp only [linspace, if_neg h0, if_neg h1] at hl ⊢
  rw [List.getElem_map]
  simp

lemma num_cast_sub_one_ne (num : ℕ) (h2 : 2 ≤ num) : ((num : ℚ) - 1) ≠ 0 := by
  have : (2 : ℚ) ≤ (num : ℚ) := by exact_mod_cast h2
  linarith

lemma linspace_first (start stop : ℚ) (num : ℕ) (h2 : 2 ≤ num) :
    (linspace start stop num).getD 0 0 = start := by
  rw [linspace_getD start stop num h2 0 (by omega)]
  simp

lemma linspace_last (start stop : ℚ) (num : ℕ) (h2 : 2 ≤ num) :
    (linspace start stop num).getLast? = some stop := by
  have hlen : (linspace start stop num).length = num := linspace_length start stop num
  have hne : (linspace start stop num) ≠ [] := by
    intro h
    rw [h] at hlen
    simp at hlen
    omega
  have hidx : num - 1 < (linspace start stop num).length := by omega
  rw [List.getLast?_eq_getElem?, hlen, List.getElem?_eq_getElem hidx]
  rw [← List.getD_eq_getElem _ 0 hidx,
    linspace_getD start stop num h2 (num - 1) (by omega)]
  have hcast : ((num - 1 : ℕ) : ℚ) = (num : ℚ) - 1 := by
    have : 1 ≤ num := by omega
    push_cast [this]
    ring
  rw [hcast]
  have hne0 := num_cast_sub_one_ne num h2
  congr 1
  field_simp

lemma linspace_getD_mem (start stop : ℚ) (num : ℕ) (i : ℕ) (hi : i < num) :
    (linspace start stop num).getD i 0 ∈ linspace start stop num := by
  have hl : i < (linspace start stop num).length := by rwa [linspace_length]
  rw [List.getD_eq_getElem _ _ hl]
  exact List.getElem_mem hl

lemma linspace_mem_last (start stop : ℚ) (num : ℕ) (h2 : 2 ≤ num) :
    stop ∈ linspace start stop num := by
  have h := linspace_last start stop num h2
  obtain ⟨hne, heq⟩ :=
    @List.mem_getLast?_eq_getLast ℚ (linspace start stop num) stop
      (by simp [Option.mem_def, h])
  simpa only [← heq] using List.getLast_mem hne

/-- C2 counterexample: for the document with `energy_convergence` absent and
`iterations = 1`, the synthesized sequence is `[0.6]`, so the endpoint
-0.886786 does not occur in it -- the claimed inclusiveness of both
endpoints fails at K = 1. -/
theorem linspace_one_misses_endpoint :
    (resolve ⟨none, some 1, none, false⟩).energy_convergence = [0.6] ∧
    ¬ ((-0.886786 : ℚ) ∈ (resolve ⟨none, some 1, none, false⟩).energy_convergence) := by
  constructor <;> norm_num [resolve, linspace]

/-- C2 (amended): with `energy_convergence` absent the script synthesizes
`np.linspace(0.6, -0.886786, K)` for the resolved iteration count K; the
sequence has length K for every K, and for K ≥ 2 it is linearly spaced with
both endpoints 0.6 and -0.886786 occurring (it is `[0.6]` for K = 1 and
empty for K = 0, so the endpoint promise holds exactly when K ≥ 2). -/
theorem linspace_default_amended (K : ℕ) :
    (linspace 0.6 (-0.886786) K).length = K ∧
    (∀ d : ResultDocument, d.energy_convergence = none →
      (resolve d).energy_convergence =
        linspace 0.6 (-0.886786) ((resolve d).iterations)) ∧
    linspace 0.6 (-0.886786) 1 = [0.6] ∧
    linspace 0.6 (-0.886786) 0 = [] ∧
    (2 ≤ K →
      (linspace 0.6 (-0.886786) K).getD 0 0 = 0.6 ∧
      (linspace 0.6 (-0.886786) K).getLast? = some (-0.886786) ∧
      (0.6 : ℚ) ∈ linspace 0.6 (-0.886786) K ∧
      (-0.886786 : ℚ) ∈ linspace 0.6 (-0.886786) K ∧
      ∀ i, i < K → (linspace 0.6 (-0.886786) K).getD i 0 =
        0.6 + (i : ℚ) * (((-0.886786 : ℚ) - 0.6) / ((K : ℚ) - 1))) := by
  refine ⟨linspace_length _ _ _, ?_, by norm_num [linspace], by norm_num [linspace], ?_⟩
  · intro d h
    simp [resolve, h]
  · intro h2
    refine ⟨linspace_first _ _ _ h2, linspace_last _ _ _ h2, ?_,
      linspace_mem_last _ _ _ h2, fun i hi => linspace_getD _ _ _ h2 i hi⟩
    have h := linspace_first 0.6 (-0.886786) K h2
    simpa only [h] using linspace_getD_mem 0.6 (-0.886786) K 0 (by omega)

/-- Witness for C2 at K = 5: the synthesized sequence ends at -0.886786 and
the resolved document uses exactly this sequence. -/
theorem linspace_default_amended_witness :
    2 ≤ 5 ∧
    (linspace 0.6 (-0.886786) 5).getLast? = some (-0.886786) ∧
    (resolve ⟨none, some 5, none, false⟩).energy_convergence =
      linspace 0.6 (-0.886786) ((resolve ⟨none, some 5, none, false⟩).iterations) :=
  ⟨by norm_num,
   ((linspace_default_amended 5).2.2.2.2 (by norm_num)).2.1,
   (linspace_default_amended 5).2.1 _ rfl⟩

/-! ### Helper lemmas about the rendered block list -/

lemma error_not_mem_renderDoc (d : ResultDocument) (t : Toggles) (m : String) :
    Block.error m ∉ (renderDoc d t).1 := by
  obtain ⟨sh, sr, up⟩ := t
  simp only [renderDoc]
  split
  · cases hl : (resolve d).energy_convergence.getLast? <;>
      cases sh <;> cases sr <;> cases up <;>
        simp [hl, preBlocks, histSection, runningAvgSection, progressSection,
          conclusionBlocks, chartBlock, convFig, histFig, runningAvgFig]
  · simp

lemma finalEnergyValues_renderDoc (d : ResultDocument) (t : Toggles)
    (ht : d.truthy = true) :
    finalEnergyValues (renderDoc d t).1 =
      ((resolve d).energy_convergence.getLast?.map pyRound6).toList := by
  obtain ⟨sh, sr, up⟩ := t
  simp only [renderDoc, ht]
  cases hl : (resolve d).energy_convergence.getLast? <;>
    cases sh <;> cases sr <;> cases up <;>
      simp [hl, finalEnergyValues, preBlocks, histSection, runningAvgSection,
        progressSection, conclusionBlocks, chartBlock, convFig, histFig,
        runningAvgFig]

/-- C3: the loader distinguishes exactly the two error kinds, each is
reported as a single blocking error message, and error messages appear in
the output only for those two outcomes -- so a load failure is terminal,
with no chart, summary or progress block rendered. -/
theorem load_errors_blocking :
    (∀ t, app .fileNotFound t =
        ([Block.error "Error: quantum_results.json file not found!"], none)) ∧
    (∀ t, app .jsonDecodeError t =
        ([Block.error "Error: Invalid JSON format!"], none)) ∧
    (∀ o t m, Block.error m ∈ (app o t).1 →
        o = LoadOutcome.fileNotFound ∨ o = LoadOutcome.jsonDecodeError) := by
  refine ⟨fun t => rfl, fun t => rfl, ?_⟩
  intro o t m hm
  cases o with
  | success d => exact absurd hm (error_not_mem_renderDoc d t m)
  | fileNotFound => exact Or.inl rfl
  | jsonDecodeError => exact Or.inr rfl

/-- Witness for C3: the missing-file outcome reports its message, and the
reported message classifies the outcome as one of the two error kinds. -/
theorem load_errors_blocking_witness :
    Block.error "Error: quantum_results.json file not found!" ∈
        (app .fileNotFound ⟨true, true, true⟩).1 ∧
    (LoadOutcome.fileNotFound = LoadOutcome.fileNotFound ∨
      LoadOutcome.fileNotFound = LoadOutcome.jsonDecodeError) :=
  ⟨by simp [app],
   load_errors_blocking.2.2 .fileNotFound ⟨true, true, true⟩
     "Error: quantum_results.json file not found!" (by simp [app])⟩

/-- C4: for every successfully rendered document the one displayed final
energy value is the last element of the resolved energy sequence rounded to
6 decimal places (and no final value is displayed when the sequence is
empty and the render aborts). -/
theorem final_energy_rounded (d : ResultDocument) (t : Toggles)
    (ht : d.truthy = true) :
    finalEnergyValues (app (.success d) t).1 =
      ((resolve d).energy_convergence.getLast?.map pyRound6).toList :=
  finalEnergyValues_renderDoc d t ht

/-- Witness for C4 at a concrete two-element document. -/
theorem final_energy_rounded_witness :
    ResultDocument.truthy ⟨some 1, some 2, some [1/2, 1/3], false⟩ = true ∧
    finalEnergyValues
        (app (.success ⟨some 1, some 2, some [1/2, 1/3], false⟩)
          ⟨true, true, true⟩).1 =
      (((resolve ⟨some 1, some 2, some [1/2, 1/3], false⟩).energy_convergence.getLast?).map
          pyRound6).toList :=
  ⟨rfl, final_energy_rounded ⟨some 1, some 2, some [1/2, 1/3], false⟩ ⟨true, true, true⟩ rfl⟩

/-- C5: each of the three fields resolves to the stored value when present
and to its stated default when absent (0.0, 100, and the synthetic ramp),
the sequence default being computed from the already-resolved iteration
count. -/
theorem field_resolution_defaults (d : ResultDocument) :
    (∀ g, d.ground_state_energy = some g → (resolve d).ground_state_energy = g) ∧
    (d.ground_state_energy = none → (resolve d).ground_state_energy = 0.0) ∧
    (∀ n, d.iterations = some n → (resolve d).iterations = n) ∧
    (d.iterations = none → (resolve d).iterations = 100) ∧
    (∀ l, d.energy_convergence = some l → (resolve d).energy_convergence = l) ∧
    (d.energy_convergence = none →
      (resolve d).energy_convergence =
        linspace 0.6 (-0.886786) ((resolve d).iterations)) := by
  refine ⟨?_, ?_, ?_, ?_, ?_, ?_⟩
  · intro g h; simp [resolve, h]
  · intro h; simp [resolve, h]
  · intro n h; simp [resolve, h]
  · intro h; simp [resolve, h]
  · intro l h; simp [resolve, h]
  · intro h; simp [resolve, h]

/-- Witness for C5: the all-absent document resolves to the defaults, and a
stored iteration count is returned as stored. -/
theorem field_resolution_defaults_witness :
    ((⟨none, none, none, false⟩ : ResultDocument).iterations = none ∧
      (resolve ⟨none, none, none, false⟩).iterations = 100) ∧
    ((⟨some 2, some 7, some [5], true⟩ : ResultDocument).iterations = some 7 ∧
      (resolve ⟨some 2, some 7, some [5], true⟩).iterations = 7) ∧
    ((⟨none, none, none, false⟩ : ResultDocument).ground_state_energy = none ∧
      (resolve ⟨none, none, none, false⟩).ground_state_energy = 0.0) :=
  ⟨⟨rfl, (field_resolution_defaults ⟨none, none, none, false⟩).2.2.2.1 rfl⟩,
   ⟨rfl, (field_resolution_defaults ⟨some 2, some 7, some [5], true⟩).2.2.1 7 rfl⟩,
   ⟨rfl, (field_resolution_defaults ⟨none, none, none, false⟩).2.1 rfl⟩⟩

/-- C6: for each of the three charts, the figure handed to the plotly
backend and the one handed to the matplotlib backend carry the same data
series, the same axis labels and the same title. -/
theorem backend_charts_equivalent (d : ResultDocument) :
    figObs (convFig true (resolve d).energy_convergence) =
      figObs (convFig false (resolve d).energy_convergence) ∧
    figObs (histFig true (resolve d).energy_convergence) =
      figObs (histFig false (resolve d).energy_convergence) ∧
    figObs (runningAvgFig true (runningAvg (resolve d).energy_convergence)) =
      figObs (runningAvgFig false (runningAvg (resolve d).energy_convergence)) := by
  refine ⟨?_, ?_, ?_⟩ <;>
    simp [figObs, convFig, histFig, runningAvgFig, Fig.xData, Fig.yData,
      Fig.xLabel, Fig.yLabel, Fig.theTitle]

/-- C7: flipping one optional-chart toggle changes the rendered output by
exactly inserting or removing the section belonging to that control;
everything around it (including the runtime-error outcome) is unchanged. -/
theorem optional_sections_frame (d : ResultDocument) (sh sr up : Bool)
    (ht : d.truthy = true) :
    (∃ pre post,
      (app (.success d) ⟨false, sr, up⟩).1 = pre ++ post ∧
      (app (.success d) ⟨true, sr, up⟩).1 =
        pre ++ histSection up (resolve d).energy_convergence ++ post ∧
      (app (.success d) ⟨true, sr, up⟩).2 =
        (app (.success d) ⟨false, sr, up⟩).2) ∧
    (∃ pre post,
      (app (.success d) ⟨sh, false, up⟩).1 = pre ++ post ∧
      (app (.success d) ⟨sh, true, up⟩).1 =
        pre ++ runningAvgSection up (resolve d).energy_convergence ++ post ∧
      (app (.success d) ⟨sh, true, up⟩).2 =
        (app (.success d) ⟨sh, false, up⟩).2) := by
  constructor
  · refine ⟨preBlocks d up,
      (if sr then runningAvgSection up (resolve d).energy_convergence else []) ++
        (progressSection (resolve d).iterations ++
          (match (resolve d).energy_convergence.getLast? with
            | some last => [Block.finalEnergy (pyRound6 last),
                Block.processedIterations (resolve d).iterations] ++ conclusionBlocks
            | none => [])), ?_, ?_, ?_⟩ <;>
    · simp only [app, renderDoc, ht]
      cases hl : (resolve d).energy_convergence.getLast? <;>
        simp [hl, List.append_assoc]
  · refine ⟨preBlocks d up ++
      (if sh then histSection up (resolve d).energy_convergence else []),
      progressSection (resolve d).iterations ++
        (match (resolve d).energy_convergence.getLast? with
          | some last => [Block.finalEnergy (pyRound6 last),
              Block.processedIterations (resolve d).iterations] ++ conclusionBlocks
          | none => []), ?_, ?_, ?_⟩ <;>
    · simp only [app, renderDoc, ht]
      cases hl : (resolve d).energy_convergence.getLast? <;>
        simp [hl, List.append_assoc]

/-- A concrete document used to witness the frame property. -/
def docW : ResultDocument := ⟨some 1, some 2, some [1, 2], false⟩

/-- Witness for C7 at a concrete document: toggling the histogram control
inserts exactly the histogram section. -/
theorem optional_sections_frame_witness :
    ResultDocument.truthy docW = true ∧
    (∃ pre post,
      (app (.success docW) ⟨false, true, true⟩).1 = pre ++ post ∧
      (app (.success docW) ⟨true, true, true⟩).1 =
        pre ++ histSection true (resolve docW).energy_convergence ++ post ∧
      (app (.success docW) ⟨true, true, true⟩).2 =
        (app (.success docW) ⟨false, true, true⟩).2) :=
  ⟨rfl, (optional_sections_frame docW true true true rfl).1⟩

/-- C8: the rendered output (block list and error outcome) is a pure
function of the loaded document and the toggle states: a run is unchanged
under any change of the timing environment, which is the only input of a
run beyond those two. -/
theorem render_pure_function (e₁ e₂ : ℕ → ℚ) (o : LoadOutcome) (t : Toggles) :
    (appTimed e₁ o t).1 = (appTimed e₂ o t).1 := rfl

/-- C9: for a truthy document the render completes without error exactly
when the resolved energy sequence is non-empty; when it is empty the final
summary access is out of bounds, so the run ends in an IndexError right
after the charts and the progress indicator, and no final energy is
displayed. -/
theorem empty_sequence_index_error (d : ResultDocument) (t : Toggles)
    (ht : d.truthy = true) :
    ((app (.success d) t).2 = none ↔ (resolve d).energy_convergence ≠ []) ∧
    ((resolve d).energy_convergence = [] →
      (app (.success d) t).2 = some RenderError.indexError ∧
      (app (.success d) t).1 =
        preBlocks d t.use_plotly ++
        (if t.show_histogram then histSection t.use_plotly [] else []) ++
        (if t.show_running_avg then runningAvgSection t.use_plotly [] else []) ++
        progressSection (resolve d).iterations ∧
      chartBlock t.use_plotly (convFig t.use_plotly (resolve d).energy_convergence)
          ∈ (app (.success d) t).1 ∧
      finalEnergyValues (app (.success d) t).1 = []) := by
  obtain ⟨sh, sr, up⟩ := t
  constructor
  · simp only [app, renderDoc, ht]
    cases hl : (resolve d).energy_convergence.getLast? with
    | none =>
      simp only [List.getLast?_eq_none_iff] at hl
      simp [hl]
    | some last =>
      have : (resolve d).energy_convergence ≠ [] := by
        intro he
        rw [he] at hl
        simp at hl
      simp [this]
  · intro hempty
    have hl : (resolve d).energy_convergence.getLast? = none := by
      rw [List.getLast?_eq_none_iff]
      exact hempty
    refine ⟨?_, ?_, ?_, ?_⟩
    · simp only [app, renderDoc, ht]
      simp [hl]
    · simp only [app, renderDoc, ht]
      simp [hl, hempty, List.append_assoc]
    · simp only [app, renderDoc, ht]
      simp only [hl]
      simp [preBlocks]
    · simp only [app, renderDoc, ht]
      cases sh <;> cases sr <;> cases up <;>
        simp [hl, finalEnergyValues, preBlocks, histSection, runningAvgSection,
          progressSection, chartBlock, convFig, histFig, runningAvgFig, hempty]

/-- A document storing an explicitly empty energy sequence. -/
def emptySeqDoc : ResultDocument := ⟨none, none, some [], false⟩

/-- A document storing `iterations = 0` with the sequence key absent. -/
def zeroIterDoc : ResultDocument := ⟨none, some 0, none, false⟩

/-- Witness for C9: both an explicitly empty stored sequence and a
zero-iteration synthesized sequence make the final-summary access fail. -/
theorem empty_sequence_index_error_witness :
    (ResultDocument.truthy emptySeqDoc = true ∧
      (resolve emptySeqDoc).energy_convergence = [] ∧
      (app (.success emptySeqDoc) ⟨true, true, true⟩).2 =
        some RenderError.indexError) ∧
    (ResultDocument.truthy zeroIterDoc = true ∧
      (resolve zeroIterDoc).energy_convergence = [] ∧
      (app (.success zeroIterDoc) ⟨true, true, true⟩).2 =
        some RenderError.indexError) :=
  ⟨⟨rfl, rfl,
    ((empty_sequence_index_error emptySeqDoc ⟨true, true, true⟩ rfl).2 rfl).1⟩,
   ⟨rfl, rfl,
    ((empty_sequence_index_error zeroIterDoc ⟨true, true, true⟩ rfl).2 rfl).1⟩⟩

/-- The document loaded from the valid JSON text of the empty object. -/
def emptyObjectDoc : ResultDocument := ⟨none, none, none, false⟩

/-- C10: the well-formed empty object loads successfully yet renders
nothing at all -- no blocks, no error message, no runtime error -- because
the body is gated on dict truthiness rather than on the result being
non-None, so the per-field defaults are never applied. -/
theorem empty_object_renders_nothing :
    emptyObjectDoc.truthy = false ∧
    ∀ t, app (.success emptyObjectDoc) t = ([], none) := by
  refine ⟨rfl, fun t => ?_⟩
  simp [app, renderDoc, emptyObjectDoc, ResultDocument.truthy]
